import Mathlib

/-!
Shallow embedding of the Chitfund-App server core (`server/storage.ts`
`MemStorage` and the Express route handlers of `server/routes.ts`, with the
password helpers of `server/auth.ts`).

Conventions of the embedding:
* JS `Map<number, T>` keyed by an auto-incremented id is modelled as a
  `List T` in insertion order; `Map.get` is `List.find?` on the id field and
  `Map.set` on a fresh id is an append, on an existing id a pointwise
  replacement.
* TS strings stay `String`, numbers become `Nat` (ids, counters, months) or
  `Int` (currency amounts), nullable fields become `Option`.
* `Partial<T>` update payloads become structures of `Option` fields
  (`none` = key absent), merged with `Option.getD` exactly as the TS spread
  `{ ...record, ...partial }` merges present keys.
* Wall-clock fields (`createdAt`, `bidTime`) and the ISO re-formatting of
  `startDate` are not modelled; no claim concerns them.
* Express middleware (`isAuthenticated` / `isManager`) runs before each
  handler; a handler is a function of the store, the session user
  (`Option User`, `none` = no session) and the request data, returning a
  response and the new store.
* Apostrophes are elided from response message strings ("you have created"
  for "you've created"); status codes and all branching are kept verbatim.
-/

namespace Chitfund

/-- HTTP-level outcome of a route handler: `ok status body` for a JSON
success response, `err status message` for an error response. -/
inductive Resp (α : Type) where
  | ok (status : Nat) (body : α)
  | err (status : Nat) (message : String)
deriving Repr, DecidableEq

/-- Status code of a response, success or error. -/
def Resp.status : Resp α → Nat
  | .ok s _ => s
  | .err s _ => s

/-! ### Credential model (`server/auth.ts` / the inlined copies in
`server/routes.ts`)

The stored credential string is `${digest}.${salt}`; `comparePasswords`
splits at the dot and compares the recomputed digest. We model the stored
string as its two components. -/

/-- Modelled from the spec: the scrypt key-derivation function (an external
`crypto` primitive, not part of this repository) producing the hex digest of
`(password, salt)`. Modelled as a concrete function that, like scrypt with a
fixed salt, distinguishes distinct passwords. -/
def scryptHex (password salt : String) : String :=
  password ++ ":" ++ salt

/-- The stored credential `${digest}.${salt}` (`hashPassword` output format). -/
structure StoredCred where
  digest : String
  salt : String
deriving Repr, DecidableEq

/-- `hashPassword`: derive a digest from the password and a fresh random salt
(the salt is passed explicitly since randomness is external). -/
def hashPassword (password salt : String) : StoredCred :=
  { digest := scryptHex password salt, salt := salt }

/-- `comparePasswords(supplied, stored)`: recompute the digest with the
stored salt and compare (the TS `timingSafeEqual` is equality of digests). -/
def comparePasswords (supplied : String) (stored : StoredCred) : Bool :=
  scryptHex supplied stored.salt == stored.digest

/-! ### Entities (`shared/schema.ts` select types) -/

/-- `User` (table `users`). `role` is a free string in the schema, compared
against `"manager"` / `"customer"` in the routes. -/
structure User where
  id : Nat
  username : String
  password : StoredCred
  phone : String
  name : String
  email : Option String
  role : String
  isFirstLogin : Bool
  managerId : Option Nat
deriving Repr, DecidableEq

/-- `ChitGroup` (table `chit_groups`). -/
structure ChitGroup where
  id : Nat
  name : String
  value : Int
  duration : Nat
  membersCount : Nat
  startDate : String
  isActive : Bool
  createdBy : Nat
deriving Repr, DecidableEq

/-- `ChitGroupMember` (table `chit_group_members`). -/
structure ChitGroupMember where
  id : Nat
  chitGroupId : Nat
  userId : Nat
  joinDate : String
deriving Repr, DecidableEq

/-- `Auction` (table `auctions`). `status` is a free string in the schema
(`'scheduled' | 'completed' | 'cancelled'` by intent). -/
structure Auction where
  id : Nat
  chitGroupId : Nat
  auctionDate : String
  winnerUserId : Option Nat
  winningBid : Option Int
  status : String
  monthNumber : Nat
deriving Repr, DecidableEq

/-- `Bid` (table `bids`), minus the wall-clock `bidTime`. -/
structure Bid where
  id : Nat
  auctionId : Nat
  userId : Nat
  bidAmount : Int
deriving Repr, DecidableEq

/-- `Payment` (table `payments`). -/
structure Payment where
  id : Nat
  chitGroupId : Nat
  userId : Nat
  amount : Int
  paymentDate : String
  monthNumber : Nat
  status : String
deriving Repr, DecidableEq

/-- `Notification` (table `notifications`). -/
structure Notification where
  id : Nat
  userId : Nat
  message : String
  isRead : Bool
  type : String
deriving Repr, DecidableEq

/-! ### Insert payloads (`insertXSchema` inferred types) -/

/-- `InsertChitGroupMember` (`insertChitGroupMemberSchema`: id/createdAt
omitted). -/
structure InsertChitGroupMember where
  chitGroupId : Nat
  userId : Nat
  joinDate : String
deriving Repr, DecidableEq

/-- `InsertAuction` (`insertAuctionSchema`: id/createdAt omitted). The
nullable winner fields may also be absent from the payload: the outer
`Option` is key presence, the inner `Option` is JSON null vs a value. -/
structure InsertAuction where
  chitGroupId : Nat
  auctionDate : String
  winnerUserId : Option (Option Nat) := none
  winningBid : Option (Option Int) := none
  status : String
  monthNumber : Nat
deriving Repr, DecidableEq

/-- `InsertBid` (`insertBidSchema`: id/bidTime/createdAt omitted). -/
structure InsertBid where
  auctionId : Nat
  userId : Nat
  bidAmount : Int
deriving Repr, DecidableEq

/-- `InsertPayment` (`insertPaymentSchema`: id/createdAt omitted). -/
structure InsertPayment where
  chitGroupId : Nat
  userId : Nat
  amount : Int
  paymentDate : String
  monthNumber : Nat
  status : String
deriving Repr, DecidableEq

/-- `InsertNotification` (`insertNotificationSchema`: id/isRead/createdAt
omitted). -/
structure InsertNotification where
  userId : Nat
  message : String
  type : String
deriving Repr, DecidableEq

/-! ### Partial-update payloads (`schema.partial()` / `Partial<T>`) -/

/-- `Partial<ChitGroup>` as validated by `insertChitGroupSchema.partial()`
(so `id`, `createdBy`, `createdAt` can never appear in the payload). -/
structure ChitGroupPatch where
  name : Option String := none
  value : Option Int := none
  duration : Option Nat := none
  membersCount : Option Nat := none
  startDate : Option String := none
  isActive : Option Bool := none
deriving Repr, DecidableEq

/-- Merge a validated partial payload into a stored chit group
(`{ ...chitGroup, ...processedData }`). -/
def mergeChitGroup (g : ChitGroup) (p : ChitGroupPatch) : ChitGroup :=
  { g with
    name := p.name.getD g.name
    value := p.value.getD g.value
    duration := p.duration.getD g.duration
    membersCount := p.membersCount.getD g.membersCount
    startDate := p.startDate.getD g.startDate
    isActive := p.isActive.getD g.isActive }

/-- `Partial<Auction>` as validated by `insertAuctionSchema.partial()`. -/
structure AuctionPatch where
  chitGroupId : Option Nat := none
  auctionDate : Option String := none
  winnerUserId : Option (Option Nat) := none
  winningBid : Option (Option Int) := none
  status : Option String := none
  monthNumber : Option Nat := none
deriving Repr, DecidableEq

/-- Merge a validated partial payload into a stored auction
(`{ ...auction, ...auctionData }`). -/
def mergeAuction (a : Auction) (p : AuctionPatch) : Auction :=
  { a with
    chitGroupId := p.chitGroupId.getD a.chitGroupId
    auctionDate := p.auctionDate.getD a.auctionDate
    winnerUserId := p.winnerUserId.getD a.winnerUserId
    winningBid := p.winningBid.getD a.winningBid
    status := p.status.getD a.status
    monthNumber := p.monthNumber.getD a.monthNumber }

/-- The slice of `Partial<User>` actually sent to `storage.updateUser` by the
password-reset handlers: the new credential and the first-login flag. -/
structure UserPatch where
  password : Option StoredCred := none
  isFirstLogin : Option Bool := none
deriving Repr, DecidableEq

/-- Merge a user patch into a stored user (`{ ...user, ...userData }`). -/
def mergeUser (u : User) (p : UserPatch) : User :=
  { u with
    password := p.password.getD u.password
    isFirstLogin := p.isFirstLogin.getD u.isFirstLogin }

/-! ### `MemStorage` (`server/storage.ts`) -/

/-- The in-memory store: one `Map` (list in insertion order) and one id
counter per entity, as in the `MemStorage` constructor. -/
structure MemStorage where
  users : List User := []
  chitGroups : List ChitGroup := []
  chitGroupMembers : List ChitGroupMember := []
  auctions : List Auction := []
  bids : List Bid := []
  payments : List Payment := []
  notifications : List Notification := []
  userIdCounter : Nat := 1
  chitGroupIdCounter : Nat := 1
  chitGroupMemberIdCounter : Nat := 1
  auctionIdCounter : Nat := 1
  bidIdCounter : Nat := 1
  paymentIdCounter : Nat := 1
  notificationIdCounter : Nat := 1
deriving Repr, DecidableEq

/-- `MemStorage.getUser`: `this.users.get(id)`. -/
def MemStorage.getUser (s : MemStorage) (id : Nat) : Option User :=
  s.users.find? (fun u => u.id == id)

/-- `MemStorage.updateUser`: merge the patch into the stored user, or return
`undefined` when the id does not resolve. -/
def MemStorage.updateUser (s : MemStorage) (id : Nat) (p : UserPatch) :
    Option User × MemStorage :=
  match s.getUser id with
  | none => (none, s)
  | some u =>
    let u2 := mergeUser u p
    (some u2,
      { s with users := s.users.map (fun x => if x.id == id then u2 else x) })

/-- `MemStorage.getChitGroup`: `this.chitGroups.get(id)`. -/
def MemStorage.getChitGroup (s : MemStorage) (id : Nat) : Option ChitGroup :=
  s.chitGroups.find? (fun g => g.id == id)

/-- `MemStorage.getAllChitGroups`. -/
def MemStorage.getAllChitGroups (s : MemStorage) : List ChitGroup :=
  s.chitGroups

/-- `MemStorage.updateChitGroup`: merge the patch into the stored group, or
return `undefined` when the id does not resolve. -/
def MemStorage.updateChitGroup (s : MemStorage) (id : Nat) (p : ChitGroupPatch) :
    Option ChitGroup × MemStorage :=
  match s.getChitGroup id with
  | none => (none, s)
  | some g =>
    let g2 := mergeChitGroup g p
    (some g2,
      { s with chitGroups :=
          s.chitGroups.map (fun x => if x.id == id then g2 else x) })

/-- `MemStorage.getChitGroupMembers`: all membership records of a group. -/
def MemStorage.getChitGroupMembers (s : MemStorage) (chitGroupId : Nat) :
    List ChitGroupMember :=
  s.chitGroupMembers.filter (fun m => m.chitGroupId == chitGroupId)

/-- `MemStorage.getChitGroupsByUser`: resolve the user's membership records,
then the referenced groups, dropping dangling references. -/
def MemStorage.getChitGroupsByUser (s : MemStorage) (userId : Nat) :
    List ChitGroup :=
  (s.chitGroupMembers.filter (fun m => m.userId == userId)).filterMap
    (fun m => s.getChitGroup m.chitGroupId)

/-- `MemStorage.addMemberToChitGroup`: assign the next id and persist. -/
def MemStorage.addMemberToChitGroup (s : MemStorage)
    (data : InsertChitGroupMember) : ChitGroupMember × MemStorage :=
  let member : ChitGroupMember :=
    { id := s.chitGroupMemberIdCounter
      chitGroupId := data.chitGroupId
      userId := data.userId
      joinDate := data.joinDate }
  (member,
    { s with
      chitGroupMembers := s.chitGroupMembers ++ [member]
      chitGroupMemberIdCounter := s.chitGroupMemberIdCounter + 1 })

/-- `MemStorage.createAuction`: assign the next id, default absent winner
fields to null, persist. -/
def MemStorage.createAuction (s : MemStorage) (data : InsertAuction) :
    Auction × MemStorage :=
  let auction : Auction :=
    { id := s.auctionIdCounter
      chitGroupId := data.chitGroupId
      auctionDate := data.auctionDate
      winnerUserId := data.winnerUserId.getD none
      winningBid := data.winningBid.getD none
      status := data.status
      monthNumber := data.monthNumber }
  (auction,
    { s with
      auctions := s.auctions ++ [auction]
      auctionIdCounter := s.auctionIdCounter + 1 })

/-- `MemStorage.getAuction`: `this.auctions.get(id)`. -/
def MemStorage.getAuction (s : MemStorage) (id : Nat) : Option Auction :=
  s.auctions.find? (fun a => a.id == id)

/-- `MemStorage.getAuctionsByChitGroup`. -/
def MemStorage.getAuctionsByChitGroup (s : MemStorage) (chitGroupId : Nat) :
    List Auction :=
  s.auctions.filter (fun a => a.chitGroupId == chitGroupId)

/-- `MemStorage.updateAuction`: merge the patch into the stored auction with
no precondition on the current status. -/
def MemStorage.updateAuction (s : MemStorage) (id : Nat) (p : AuctionPatch) :
    Option Auction × MemStorage :=
  match s.getAuction id with
  | none => (none, s)
  | some a =>
    let a2 := mergeAuction a p
    (some a2,
      { s with auctions := s.auctions.map (fun x => if x.id == id then a2 else x) })

/-- `MemStorage.createBid`: assign the next id and persist. -/
def MemStorage.createBid (s : MemStorage) (data : InsertBid) :
    Bid × MemStorage :=
  let bid : Bid :=
    { id := s.bidIdCounter
      auctionId := data.auctionId
      userId := data.userId
      bidAmount := data.bidAmount }
  (bid,
    { s with
      bids := s.bids ++ [bid]
      bidIdCounter := s.bidIdCounter + 1 })

/-- `MemStorage.getBidsByAuction`. -/
def MemStorage.getBidsByAuction (s : MemStorage) (auctionId : Nat) : List Bid :=
  s.bids.filter (fun b => b.auctionId == auctionId)

/-- `MemStorage.createPayment`: assign the next id and persist. -/
def MemStorage.createPayment (s : MemStorage) (data : InsertPayment) :
    Payment × MemStorage :=
  let payment : Payment :=
    { id := s.paymentIdCounter
      chitGroupId := data.chitGroupId
      userId := data.userId
      amount := data.amount
      paymentDate := data.paymentDate
      monthNumber := data.monthNumber
      status := data.status }
  (payment,
    { s with
      payments := s.payments ++ [payment]
      paymentIdCounter := s.paymentIdCounter + 1 })

/-- `MemStorage.createNotification`: assign the next id, `isRead := false`,
persist. -/
def MemStorage.createNotification (s : MemStorage) (data : InsertNotification) :
    Notification × MemStorage :=
  let notification : Notification :=
    { id := s.notificationIdCounter
      userId := data.userId
      message := data.message
      isRead := false
      type := data.type }
  (notification,
    { s with
      notifications := s.notifications ++ [notification]
      notificationIdCounter := s.notificationIdCounter + 1 })

/-! ### Route handlers (`server/routes.ts`)

Each handler takes the store, the session user resolved by passport
(`none` = unauthenticated request) and the already-parsed request data.
`validateRequest` against a zod schema cannot fail on a payload of the
typed shape (the schemas carry no range refinements), so the validated
payload is the typed argument itself. -/

/-- `GET /api/chitgroups` (`isAuthenticated`): managers see the groups they
created, customers the groups a membership record ties them to. -/
def getChitGroups (s : MemStorage) (session : Option User) :
    Resp (List ChitGroup) :=
  match session with
  | none => .err 401 "Unauthorized"
  | some user =>
    if user.role == "manager" then
      .ok 200 ((s.getAllChitGroups).filter (fun g => g.createdBy == user.id))
    else
      .ok 200 (s.getChitGroupsByUser user.id)

/-- `GET /api/chitgroups/:id` (`isAuthenticated`): 404 if absent; a manager
is rejected with 403 unless `createdBy` matches, a customer unless a
membership record ties them to the group. -/
def getChitGroupById (s : MemStorage) (session : Option User) (id : Nat) :
    Resp ChitGroup :=
  match session with
  | none => .err 401 "Unauthorized"
  | some user =>
    match s.getChitGroup id with
    | none => .err 404 "Chit group not found"
    | some chitGroup =>
      if user.role == "manager" then
        if chitGroup.createdBy != user.id then
          .err 403 "You can only access chit groups you have created"
        else .ok 200 chitGroup
      else
        if (s.getChitGroupMembers id).any (fun m => m.userId == user.id) then
          .ok 200 chitGroup
        else .err 403 "You are not a member of this chit group"

/-- `PUT /api/chitgroups/:id` (`isManager`): 404 if absent, then the patch is
validated and applied. The handler reads `req.user` but performs no
`createdBy` ownership comparison before updating. -/
def putChitGroupById (s : MemStorage) (session : Option User) (id : Nat)
    (patch : ChitGroupPatch) : Resp (Option ChitGroup) × MemStorage :=
  match session with
  | none => (.err 401 "Unauthorized", s)
  | some user =>
    if user.role != "manager" then
      (.err 403 "Forbidden - Manager access required", s)
    else
      match s.getChitGroup id with
      | none => (.err 404 "Chit group not found", s)
      | some _ =>
        let (updated, s1) := s.updateChitGroup id patch
        (.ok 200 updated, s1)

/-- `POST /api/chitgroups/:id/members` (`isManager`): 404 if the group or the
target user is absent; 403 unless the group is the caller's and, for customer
targets, unless `managerId` is the caller; 400 on a duplicate membership
(the `Conflict` of the error taxonomy); otherwise persist the membership. -/
def postChitGroupMembers (s : MemStorage) (session : Option User) (id : Nat)
    (data : InsertChitGroupMember) : Resp ChitGroupMember × MemStorage :=
  match session with
  | none => (.err 401 "Unauthorized", s)
  | some user =>
    if user.role != "manager" then
      (.err 403 "Forbidden - Manager access required", s)
    else
      match s.getChitGroup id with
      | none => (.err 404 "Chit group not found", s)
      | some chitGroup =>
        if chitGroup.createdBy != user.id then
          (.err 403 "You can only add members to chit groups you have created", s)
        else
          match s.getUser data.userId with
          | none => (.err 404 "User not found", s)
          | some target =>
            if target.role == "customer" && target.managerId != some user.id then
              (.err 403 "You can only add customers you manage to chit groups", s)
            else if (s.getChitGroupMembers id).any
                (fun m => m.userId == data.userId) then
              (.err 400 "User is already a member of this chit group", s)
            else
              let (member, s1) :=
                s.addMemberToChitGroup { data with chitGroupId := id }
              (.ok 201 member, s1)

/-- `POST /api/chitgroups/:id/auctions` (`isManager`): 404 if the group is
absent, then the validated payload is persisted with the path group id; no
constraint relates `status` to the winner fields. -/
def postChitGroupAuctions (s : MemStorage) (session : Option User) (id : Nat)
    (data : InsertAuction) : Resp Auction × MemStorage :=
  match session with
  | none => (.err 401 "Unauthorized", s)
  | some user =>
    if user.role != "manager" then
      (.err 403 "Forbidden - Manager access required", s)
    else
      match s.getChitGroup id with
      | none => (.err 404 "Chit group not found", s)
      | some _ =>
        let (auction, s1) := s.createAuction { data with chitGroupId := id }
        (.ok 201 auction, s1)

/-- `PUT /api/auctions/:id` (`isManager`): 404 if absent, then the patch is
validated and merged unconditionally — the current status (terminal or not)
is never consulted. -/
def putAuctionById (s : MemStorage) (session : Option User) (id : Nat)
    (patch : AuctionPatch) : Resp (Option Auction) × MemStorage :=
  match session with
  | none => (.err 401 "Unauthorized", s)
  | some user =>
    if user.role != "manager" then
      (.err 403 "Forbidden - Manager access required", s)
    else
      match s.getAuction id with
      | none => (.err 404 "Auction not found", s)
      | some _ =>
        let (updated, s1) := s.updateAuction id patch
        (.ok 200 updated, s1)

/-- The per-bid user details attached by `GET /api/auctions/:id/bids`. -/
structure BidUserView where
  id : Nat
  name : String
deriving Repr, DecidableEq

/-- A bid enriched with its bidder's details (the TS handler spreads the bid
fields and adds a `user` object). -/
structure BidWithUser where
  bid : Bid
  user : Option BidUserView
deriving Repr, DecidableEq

/-- Attach the bidder's id and name to a bid. -/
def enrichBid (s : MemStorage) (b : Bid) : BidWithUser :=
  { bid := b
    user := (s.getUser b.userId).map (fun u => { id := u.id, name := u.name }) }

/-- `GET /api/auctions/:id/bids` (`isAuthenticated`): 404 if the auction is
absent, otherwise every bid of the auction with bidder details — no
membership or ownership check of any kind. -/
def getAuctionBids (s : MemStorage) (session : Option User) (id : Nat) :
    Resp (List BidWithUser) :=
  match session with
  | none => .err 401 "Unauthorized"
  | some _ =>
    match s.getAuction id with
    | none => .err 404 "Auction not found"
    | some _ => .ok 200 ((s.getBidsByAuction id).map (enrichBid s))

/-- `POST /api/auctions/:id/bids` (`isAuthenticated`): 404 if the auction is
absent; 400 unless its status is `scheduled`; for customer callers only, 403
unless a membership record ties them to the auction's group; then the bid is
persisted for the session user. -/
def postAuctionBids (s : MemStorage) (session : Option User) (id : Nat)
    (data : InsertBid) : Resp Bid × MemStorage :=
  match session with
  | none => (.err 401 "Unauthorized", s)
  | some user =>
    match s.getAuction id with
    | none => (.err 404 "Auction not found", s)
    | some auction =>
      if auction.status != "scheduled" then
        (.err 400 "Cannot place bid on a completed or cancelled auction", s)
      else
        if user.role == "customer"
            && !((s.getChitGroupMembers auction.chitGroupId).any
                  (fun m => m.userId == user.id)) then
          (.err 403 "You are not a member of this chit group", s)
        else
          let (bid, s1) :=
            s.createBid { data with auctionId := id, userId := user.id }
          (.ok 201 bid, s1)

/-- `POST /api/payments` (`isManager`): 404 if the group or the paying user is
absent; 400 unless a membership record ties the user to the group; then one
payment is persisted followed by one `payment`-type notification addressed to
the paying user. -/
def postPayments (s : MemStorage) (session : Option User)
    (data : InsertPayment) : Resp Payment × MemStorage :=
  match session with
  | none => (.err 401 "Unauthorized", s)
  | some user =>
    if user.role != "manager" then
      (.err 403 "Forbidden - Manager access required", s)
    else
      match s.getChitGroup data.chitGroupId with
      | none => (.err 404 "Chit group not found", s)
      | some chitGroup =>
        match s.getUser data.userId with
        | none => (.err 404 "User not found", s)
        | some _ =>
          if (s.getChitGroupMembers data.chitGroupId).any
              (fun m => m.userId == data.userId) then
            let (payment, s1) := s.createPayment data
            let (_, s2) := s1.createNotification
              { userId := data.userId
                message := "Your payment of Rs" ++ toString data.amount
                  ++ " for " ++ chitGroup.name ++ ", month "
                  ++ toString data.monthNumber ++ " has been recorded as "
                  ++ data.status ++ "."
                type := "payment" }
            (.ok 201 payment, s2)
          else
            (.err 400 "User is not a member of this chit group", s)

/-- `POST /api/users/:userId/reset-password` — registered with NO auth
middleware; the handler never reads `req.user` or the session, which the
`session` argument records by being ignored. JS falsiness of
`!userId || !currentPassword || !newPassword` rejects id 0, absent fields and
empty strings. The fresh salt for the new hash is passed explicitly. -/
def postUserResetPassword (s : MemStorage) (session : Option User)
    (userId : Nat) (currentPassword newPassword : Option String)
    (newSalt : String) : Resp String × MemStorage :=
  if userId == 0 || currentPassword.getD "" == "" || newPassword.getD "" == ""
  then
    (.err 400 "Missing required fields", s)
  else
    match s.getUser userId with
    | none => (.err 404 "User not found", s)
    | some user =>
      if comparePasswords (currentPassword.getD "") user.password then
        let (_, s1) := s.updateUser userId
          { password := some (hashPassword (newPassword.getD "") newSalt)
            isFirstLogin := some false }
        (.ok 200 "Password updated successfully", s1)
      else
        (.err 400 "Current password is incorrect", s)

/-! ### Concrete fixtures for witnesses and counterexamples -/

/-- Fixture: manager with id 1. -/
def mgrOne : User :=
  { id := 1, username := "m1", password := hashPassword "pw1" "s1"
    phone := "111", name := "Manager One", email := none, role := "manager"
    isFirstLogin := false, managerId := none }

/-- Fixture: a second manager, id 2, unrelated to manager 1's groups. -/
def mgrTwo : User :=
  { id := 2, username := "m2", password := hashPassword "pw2" "s2"
    phone := "222", name := "Manager Two", email := none, role := "manager"
    isFirstLogin := false, managerId := none }

/-- Fixture: customer id 3 managed by manager 1, member of group 1, still on
the temporary first-login password. -/
def custThree : User :=
  { id := 3, username := "c3", password := hashPassword "temp" "ts"
    phone := "333", name := "Customer Three", email := none, role := "customer"
    isFirstLogin := true, managerId := some 1 }

/-- Fixture: customer id 4 managed by manager 1, not a member of any group. -/
def custFour : User :=
  { id := 4, username := "c4", password := hashPassword "pw4" "s4"
    phone := "444", name := "Customer Four", email := none, role := "customer"
    isFirstLogin := true, managerId := some 1 }

/-- Fixture: chit group 1 created by manager 1. -/
def grpOne : ChitGroup :=
  { id := 1, name := "G1", value := 100000, duration := 10, membersCount := 5
    startDate := "2024-01-01", isActive := true, createdBy := 1 }

/-- Fixture: the membership tying customer 3 to group 1. -/
def memOne : ChitGroupMember :=
  { id := 1, chitGroupId := 1, userId := 3, joinDate := "2024-01-01" }

/-- Fixture: auction 1 of group 1, still `scheduled`, no winner fields. -/
def aucScheduled : Auction :=
  { id := 1, chitGroupId := 1, auctionDate := "2024-02-01"
    winnerUserId := none, winningBid := none, status := "scheduled"
    monthNumber := 1 }

/-- Fixture: auction 2 of group 1, `completed` with both winner fields. -/
def aucCompleted : Auction :=
  { id := 2, chitGroupId := 1, auctionDate := "2024-03-01"
    winnerUserId := some 3, winningBid := some 95000, status := "completed"
    monthNumber := 2 }

/-- Fixture store holding the users, group, membership and auctions above. -/
def storeS0 : MemStorage :=
  { users := [mgrOne, mgrTwo, custThree, custFour]
    chitGroups := [grpOne]
    chitGroupMembers := [memOne]
    auctions := [aucScheduled, aucCompleted]
    userIdCounter := 5, chitGroupIdCounter := 2
    chitGroupMemberIdCounter := 2, auctionIdCounter := 3 }

/-! ### Helper lemmas -/

/-- Replacing, in a list, every element whose key matches `k` by a fixed
element with the same key moves `find?` from the old first match to the
replacement. This is `Map.set` on an existing key followed by `Map.get`. -/
theorem find?_map_replace {α : Type} (key : α → Nat) (l : List α) (k : Nat)
    (a b : α) (hid : key b = key a)
    (h : l.find? (fun x => key x == k) = some a) :
    (l.map (fun x => if key x == k then b else x)).find?
      (fun x => key x == k) = some b := by
  induction l with
  | nil => simp [List.find?] at h
  | cons x xs ih =>
    cases hx : (key x == k) with
    | true =>
      rw [List.find?_cons_of_pos (p := fun x => key x == k) xs hx] at h
      have hxa : x = a := Option.some.inj h
      have hb : (key b == k) = true := by
        rw [hid, ← hxa]; exact hx
      simp only [List.map_cons, hx, if_true]
      exact List.find?_cons_of_pos (p := fun x => key x == k) _ hb
    | false =>
      rw [List.find?_cons_of_neg (p := fun x => key x == k) xs (by simp [hx])]
        at h
      simp only [List.map_cons, hx, if_false]
      rw [List.find?_cons_of_neg (p := fun x => key x == k) _ (by simp [hx])]
      exact ih h

/-- When the keys of a list are distinct, `find?` on the key of a known
element returns exactly that element. -/
theorem find?_key_of_nodup {α : Type} (key : α → Nat) (l : List α)
    (hnd : (l.map key).Nodup) (a : α) (ha : a ∈ l) :
    l.find? (fun x => key x == key a) = some a := by
  induction l with
  | nil => cases ha
  | cons x xs ih =>
    rw [List.map_cons, List.nodup_cons] at hnd
    rcases List.mem_cons.mp ha with rfl | hmem
    · exact List.find?_cons_of_pos (p := fun x => key x == key a) _ (by simp)
    · cases hx : (key x == key a) with
      | true =>
        exact absurd ((eq_of_beq hx) ▸ List.mem_map_of_mem key hmem) hnd.1
      | false =>
        rw [List.find?_cons_of_neg (p := fun x => key x == key a) _
          (by simp [hx])]
        exact ih hnd.2 hmem

/-- The modelled KDF separates passwords: equal digests under the same salt
force equal passwords. -/
theorem scryptHex_inj {p1 p2 s : String}
    (h : scryptHex p1 s = scryptHex p2 s) : p1 = p2 := by
  have hd : (p1 ++ ":" ++ s).data = (p2 ++ ":" ++ s).data :=
    congrArg String.data h
  simp only [String.data_append] at hd
  have h1 : p1.data ++ ":".data = p2.data ++ ":".data :=
    List.append_cancel_right hd
  have h2 : p1.data = p2.data := List.append_cancel_right h1
  cases p1; cases p2; exact congrArg String.mk h2

/-- A password verifies against its own fresh hash. -/
theorem comparePasswords_hash_self (p s : String) :
    comparePasswords p (hashPassword p s) = true := by
  simp [comparePasswords, hashPassword]

/-- A different password never verifies against a fresh hash. -/
theorem comparePasswords_hash_ne {p1 p2 : String} (s : String) (h : p1 ≠ p2) :
    comparePasswords p1 (hashPassword p2 s) = false := by
  simp only [comparePasswords, hashPassword]
  rw [beq_eq_false_iff_ne]
  exact fun hc => h (scryptHex_inj hc)

/-! ### Claim theorems -/

/-- C1: the claim asserts both the detail read and the update by a
non-owning manager fail with Forbidden and leave the group unchanged. The
read half holds: manager 2 reading manager 1's group gets 403. The update
half is a code bug: `PUT /api/chitgroups/:id` never compares `createdBy`
with the caller, so the same non-owning manager's update is applied with
200 and renames the stored group. -/
theorem C1_get_forbidden_but_put_applied :
    getChitGroupById storeS0 (some mgrTwo) 1
      = .err 403 "You can only access chit groups you have created"
    ∧ (putChitGroupById storeS0 (some mgrTwo) 1 { name := some "hacked" }).1
      = .ok 200 (some { grpOne with name := "hacked" })
    ∧ ((putChitGroupById storeS0 (some mgrTwo) 1
          { name := some "hacked" }).2).getChitGroup 1
      = some { grpOne with name := "hacked" } :=
  ⟨rfl, rfl, rfl⟩

/-- C2 counterexample: auction 2 is `completed`, yet an update setting its
status back to `scheduled` succeeds with 200 and the stored status leaves
the terminal state — the claimed InvalidTransition failure does not occur. -/
theorem C2_counterexample_terminal_update_applied :
    aucCompleted.status = "completed"
    ∧ (putAuctionById storeS0 (some mgrOne) 2 { status := some "scheduled" }).1
        = .ok 200 (some { aucCompleted with status := "scheduled" })
    ∧ ((putAuctionById storeS0 (some mgrOne) 2
          { status := some "scheduled" }).2).getAuction 2
        = some { aucCompleted with status := "scheduled" } :=
  ⟨rfl, rfl, rfl⟩

/-- C2 (amended): the auction update endpoint never consults the current
status: for any manager session and any existing auction — completed and
cancelled included — every update call succeeds with 200 and merges the
given fields into the stored record, so a terminal status can be left. -/
theorem C2_amended_update_unconditional (s : MemStorage) (m : User) (id : Nat)
    (a : Auction) (p : AuctionPatch)
    (hm : m.role = "manager") (ha : s.getAuction id = some a) :
    putAuctionById s (some m) id p
      = (.ok 200 (some (mergeAuction a p)),
         { s with auctions :=
             s.auctions.map (fun x => if x.id == id then mergeAuction a p else x) })
    ∧ ((putAuctionById s (some m) id p).2).getAuction id
        = some (mergeAuction a p) := by
  have hrole : (m.role != "manager") = false := by simp [hm]
  have hupd : putAuctionById s (some m) id p
      = (.ok 200 (some (mergeAuction a p)),
         { s with auctions :=
             s.auctions.map (fun x => if x.id == id then mergeAuction a p else x) }) := by
    simp [putAuctionById, hrole, ha, MemStorage.updateAuction]
  refine ⟨hupd, ?_⟩
  rw [hupd]
  exact find?_map_replace Auction.id s.auctions id a (mergeAuction a p) rfl ha

/-- C2 witness: the amended theorem applied to the completed fixture
auction. -/
theorem C2_amended_update_unconditional_witness :
    ((putAuctionById storeS0 (some mgrOne) 2
        { status := some "scheduled" }).2).getAuction 2
      = some (mergeAuction aucCompleted { status := some "scheduled" }) :=
  (C2_amended_update_unconditional storeS0 mgrOne 2 aucCompleted
    { status := some "scheduled" } rfl rfl).2

/-- C3 counterexample: updating the scheduled fixture auction to `completed`
without winner fields is accepted, and the resulting stored auction — a
state reachable through the public update operation — is `completed` with
both winner fields null, violating the claimed invariant and the claimed
rejection. -/
theorem C3_counterexample_completed_without_winner :
    aucScheduled.status = "scheduled"
    ∧ (putAuctionById storeS0 (some mgrOne) 1 { status := some "completed" }).1
        = .ok 200 (some { aucScheduled with status := "completed" })
    ∧ ((putAuctionById storeS0 (some mgrOne) 1
          { status := some "completed" }).2).getAuction 1
        = some { aucScheduled with status := "completed" }
    ∧ ({ aucScheduled with status := "completed" } : Auction).winnerUserId = none
    ∧ ({ aucScheduled with status := "completed" } : Auction).winningBid = none :=
  ⟨rfl, rfl, rfl, rfl, rfl⟩

/-- C3 (amended): no status/winner-field relation is enforced anywhere:
auction creation stores whatever status is supplied and defaults absent
winner fields to null, and an update setting status to `completed` without
winner fields is accepted, so completed auctions with null winner fields
(and scheduled/cancelled ones with non-null fields) are reachable. -/
theorem C3_amended_no_status_winner_invariant (s : MemStorage) (m : User)
    (gid : Nat) (g : ChitGroup) (data : InsertAuction)
    (hm : m.role = "manager") (hg : s.getChitGroup gid = some g) :
    (∃ a s1, postChitGroupAuctions s (some m) gid data = (.ok 201 a, s1)
      ∧ a.status = data.status
      ∧ a.winnerUserId = data.winnerUserId.getD none
      ∧ a.winningBid = data.winningBid.getD none
      ∧ s1.auctions = s.auctions ++ [a])
    ∧ (∀ id a, s.getAuction id = some a →
        (putAuctionById s (some m) id { status := some "completed" }).1
          = .ok 200 (some { a with status := "completed" })) := by
  have hrole : (m.role != "manager") = false := by simp [hm]
  constructor
  · have hq : postChitGroupAuctions s (some m) gid data
        = (.ok 201 (s.createAuction { data with chitGroupId := gid }).1,
           (s.createAuction { data with chitGroupId := gid }).2) := by
      simp [postChitGroupAuctions, hrole, hg]
    exact ⟨_, _, hq, rfl, rfl, rfl, rfl⟩
  · intro id a ha
    simp [putAuctionById, hrole, ha, MemStorage.updateAuction, mergeAuction]

/-- C3 witness: the amended theorem applied to the fixture store, creating a
`completed` auction with absent winner fields. -/
theorem C3_amended_no_status_winner_invariant_witness :
    (∃ a s1, postChitGroupAuctions storeS0 (some mgrOne) 1
        { chitGroupId := 1, auctionDate := "2024-04-01"
          status := "completed", monthNumber := 3 }
        = (.ok 201 a, s1)
      ∧ a.status = "completed"
      ∧ a.winnerUserId = none
      ∧ a.winningBid = none
      ∧ s1.auctions = storeS0.auctions ++ [a])
    ∧ (∀ id a, storeS0.getAuction id = some a →
        (putAuctionById storeS0 (some mgrOne) id
            { status := some "completed" }).1
          = .ok 200 (some { a with status := "completed" })) :=
  C3_amended_no_status_winner_invariant storeS0 mgrOne 1 grpOne
    { chitGroupId := 1, auctionDate := "2024-04-01"
      status := "completed", monthNumber := 3 } rfl rfl

/-- C4 counterexample: manager 2 is not a member of group 1, yet a bid by
manager 2 on the scheduled fixture auction succeeds with 201 — contradicting
the claim that a bid on a scheduled auction succeeds only for members and
fails with Forbidden otherwise. -/
theorem C4_counterexample_manager_nonmember_bid :
    aucScheduled.status = "scheduled"
    ∧ (storeS0.getChitGroupMembers 1).any
        (fun m => m.userId == mgrTwo.id) = false
    ∧ (postAuctionBids storeS0 (some mgrTwo) 1
        { auctionId := 1, userId := 2, bidAmount := 5000 }).1
        = .ok 201 { id := 1, auctionId := 1, userId := 2, bidAmount := 5000 } :=
  ⟨rfl, rfl, rfl⟩

/-- C4 (amended): a bid fails with 404 when the auction is absent and with
400 on any non-scheduled auction (no bid created); on a scheduled auction
the membership requirement applies only to customer callers — a non-member
customer gets 403 with no bid, while a caller that is a member (or any
manager, member or not) succeeds and the created bid, owned by the session
user, appears in the auction's bid list. -/
theorem C4_amended_membership_checked_for_customers_only (s : MemStorage)
    (u : User) (id : Nat) (data : InsertBid) :
    (s.getAuction id = none →
      postAuctionBids s (some u) id data = (.err 404 "Auction not found", s))
    ∧ (∀ a, s.getAuction id = some a → a.status ≠ "scheduled" →
        postAuctionBids s (some u) id data
          = (.err 400 "Cannot place bid on a completed or cancelled auction", s))
    ∧ (∀ a, s.getAuction id = some a → a.status = "scheduled" →
        u.role = "customer" →
        (s.getChitGroupMembers a.chitGroupId).any
          (fun m => m.userId == u.id) = false →
        postAuctionBids s (some u) id data
          = (.err 403 "You are not a member of this chit group", s))
    ∧ (∀ a, s.getAuction id = some a → a.status = "scheduled" →
        (u.role = "customer" →
          (s.getChitGroupMembers a.chitGroupId).any
            (fun m => m.userId == u.id) = true) →
        ∃ b s1, postAuctionBids s (some u) id data = (.ok 201 b, s1)
          ∧ b.userId = u.id ∧ b.auctionId = id
          ∧ s1.bids = s.bids ++ [b]
          ∧ b ∈ s1.getBidsByAuction id) := by
  refine ⟨?_, ?_, ?_, ?_⟩
  · intro h
    simp [postAuctionBids, h]
  · intro a ha hst
    have : (a.status != "scheduled") = true := by simp [hst]
    simp [postAuctionBids, ha, this]
  · intro a ha hst hrole hmem
    have h1 : (a.status != "scheduled") = false := by simp [hst]
    have h2 : (u.role == "customer") = true := by simp [hrole]
    simp [postAuctionBids, ha, h1, h2, hmem]
  · intro a ha hst hmem
    have h1 : (a.status != "scheduled") = false := by simp [hst]
    have h3 : (u.role == "customer"
        && !((s.getChitGroupMembers a.chitGroupId).any
              (fun m => m.userId == u.id))) = false := by
      cases hr : (u.role == "customer") with
      | false => simp [hr]
      | true =>
        have := hmem (by simpa using hr)
        simp [hr, this]
    have hq : postAuctionBids s (some u) id data
        = (.ok 201 (s.createBid { data with auctionId := id, userId := u.id }).1,
           (s.createBid { data with auctionId := id, userId := u.id }).2) := by
      simp only [postAuctionBids, ha, h1, h3]
      simp
    refine ⟨_, _, hq, rfl, rfl, rfl, ?_⟩
    simp [MemStorage.getBidsByAuction, MemStorage.createBid, List.filter_append]

/-- C4 witness: the amended theorem's success branch for the member customer
of the fixture store. -/
theorem C4_amended_membership_checked_for_customers_only_witness :
    ∃ b s1, postAuctionBids storeS0 (some custThree) 1
        { auctionId := 1, userId := 3, bidAmount := 5000 } = (.ok 201 b, s1)
      ∧ b.userId = custThree.id ∧ b.auctionId = 1
      ∧ s1.bids = storeS0.bids ++ [b]
      ∧ b ∈ s1.getBidsByAuction 1 :=
  (C4_amended_membership_checked_for_customers_only storeS0 custThree 1
    { auctionId := 1, userId := 3, bidAmount := 5000 }).2.2.2
    aucScheduled rfl rfl (fun _ => rfl)

/-- C5: a record-payment request by a manager fails with 404 when the target
group or the target user is absent and with 400 when the user is not a
member of the group — each failure returning the store unchanged, so no
payment and no notification is created — and otherwise succeeds, appending
exactly one payment record and exactly one `payment`-type notification
addressed to the paying user, all other collections untouched. -/
theorem C5_payment_creates_one_payment_one_notification (s : MemStorage)
    (m : User) (data : InsertPayment) (hm : m.role = "manager") :
    (s.getChitGroup data.chitGroupId = none →
      postPayments s (some m) data = (.err 404 "Chit group not found", s))
    ∧ (∀ g, s.getChitGroup data.chitGroupId = some g →
        s.getUser data.userId = none →
        postPayments s (some m) data = (.err 404 "User not found", s))
    ∧ (∀ g u, s.getChitGroup data.chitGroupId = some g →
        s.getUser data.userId = some u →
        (s.getChitGroupMembers data.chitGroupId).any
          (fun mem => mem.userId == data.userId) = false →
        postPayments s (some m) data
          = (.err 400 "User is not a member of this chit group", s))
    ∧ (∀ g u, s.getChitGroup data.chitGroupId = some g →
        s.getUser data.userId = some u →
        (s.getChitGroupMembers data.chitGroupId).any
          (fun mem => mem.userId == data.userId) = true →
        ∃ p n s2, postPayments s (some m) data = (.ok 201 p, s2)
          ∧ s2.payments = s.payments ++ [p]
          ∧ s2.notifications = s.notifications ++ [n]
          ∧ p.userId = data.userId ∧ p.chitGroupId = data.chitGroupId
          ∧ n.userId = data.userId ∧ n.type = "payment"
          ∧ s2.users = s.users ∧ s2.chitGroups = s.chitGroups
          ∧ s2.chitGroupMembers = s.chitGroupMembers
          ∧ s2.auctions = s.auctions ∧ s2.bids = s.bids) := by
  have hrole : (m.role != "manager") = false := by simp [hm]
  refine ⟨?_, ?_, ?_, ?_⟩
  · intro h
    simp [postPayments, hrole, h]
  · intro g hg hu
    simp [postPayments, hrole, hg, hu]
  · intro g u hg hu hmem
    simp [postPayments, hrole, hg, hu, hmem]
  · intro g u hg hu hmem
    have hq : postPayments s (some m) data
        = (.ok 201 (s.createPayment data).1,
           ((s.createPayment data).2.createNotification
             { userId := data.userId
               message := "Your payment of Rs" ++ toString data.amount
                 ++ " for " ++ g.name ++ ", month "
                 ++ toString data.monthNumber ++ " has been recorded as "
                 ++ data.status ++ "."
               type := "payment" }).2) := by
      simp [postPayments, hrole, hg, hu, hmem]
    exact ⟨_, _, _, hq, rfl, rfl, rfl, rfl, rfl, rfl, rfl, rfl, rfl, rfl, rfl⟩

/-- C5 witness: the success branch for the member customer of the fixture
store. -/
theorem C5_payment_creates_one_payment_one_notification_witness :
    ∃ p n s2, postPayments storeS0 (some mgrOne)
        { chitGroupId := 1, userId := 3, amount := 10000
          paymentDate := "2024-02-05", monthNumber := 1, status := "paid" }
        = (.ok 201 p, s2)
      ∧ s2.payments = storeS0.payments ++ [p]
      ∧ s2.notifications = storeS0.notifications ++ [n]
      ∧ p.userId = 3 ∧ p.chitGroupId = 1
      ∧ n.userId = 3 ∧ n.type = "payment"
      ∧ s2.users = storeS0.users ∧ s2.chitGroups = storeS0.chitGroups
      ∧ s2.chitGroupMembers = storeS0.chitGroupMembers
      ∧ s2.auctions = storeS0.auctions ∧ s2.bids = storeS0.bids :=
  (C5_payment_creates_one_payment_one_notification storeS0 mgrOne
    { chitGroupId := 1, userId := 3, amount := 10000
      paymentDate := "2024-02-05", monthNumber := 1, status := "paid" }
    rfl).2.2.2 grpOne custThree rfl rfl rfl

/-- C6: when a manager's add-member call for (group, user) succeeds, a second
identical call fails with the duplicate-membership error (the Conflict of
the error taxonomy, HTTP 400 here) and leaves the store unchanged, and the
store then holds exactly one membership record for the pair. -/
theorem C6_duplicate_membership_conflict (s : MemStorage) (m : User)
    (gid : Nat) (g : ChitGroup) (target : User)
    (data : InsertChitGroupMember)
    (hm : m.role = "manager")
    (hg : s.getChitGroup gid = some g)
    (hown : g.createdBy = m.id)
    (ht : s.getUser data.userId = some target)
    (hmanaged : (target.role == "customer"
        && target.managerId != some m.id) = false)
    (hnew : (s.getChitGroupMembers gid).any
      (fun mem => mem.userId == data.userId) = false) :
    ∃ mem s1, postChitGroupMembers s (some m) gid data = (.ok 201 mem, s1)
      ∧ postChitGroupMembers s1 (some m) gid data
          = (.err 400 "User is already a member of this chit group", s1)
      ∧ (s1.chitGroupMembers.filter
           (fun x => x.chitGroupId == gid && x.userId == data.userId)).length
          = 1 := by
  have hrole : (m.role != "manager") = false := by simp [hm]
  have hown2 : (g.createdBy != m.id) = false := by simp [hown]
  have hq : postChitGroupMembers s (some m) gid data
      = (.ok 201 (s.addMemberToChitGroup { data with chitGroupId := gid }).1,
         (s.addMemberToChitGroup { data with chitGroupId := gid }).2) := by
    simp [postChitGroupMembers, hrole, hg, hown2, ht, hmanaged, hnew]
  set newMem : ChitGroupMember :=
    (s.addMemberToChitGroup { data with chitGroupId := gid }).1 with hmemdef
  set s1 : MemStorage :=
    (s.addMemberToChitGroup { data with chitGroupId := gid }).2 with hs1def
  have hcgm : s1.chitGroupMembers = s.chitGroupMembers ++ [newMem] := rfl
  have hmem_gid : newMem.chitGroupId = gid := rfl
  have hmem_uid : newMem.userId = data.userId := rfl
  have hg1 : s1.getChitGroup gid = some g := hg
  have ht1 : s1.getUser data.userId = some target := ht
  have hdup : (s1.getChitGroupMembers gid).any
      (fun mem => mem.userId == data.userId) = true := by
    simp only [MemStorage.getChitGroupMembers, hcgm, List.filter_append,
      List.any_append]
    have : ([newMem].filter (fun mm => mm.chitGroupId == gid)).any
        (fun mem => mem.userId == data.userId) = true := by
      simp [hmem_gid, hmem_uid]
    rw [this, Bool.or_true]
  have hsecond : postChitGroupMembers s1 (some m) gid data
      = (.err 400 "User is already a member of this chit group", s1) := by
    simp [postChitGroupMembers, hrole, hg1, hown2, ht1, hmanaged, hdup]
  have hcount : (s1.chitGroupMembers.filter
      (fun x => x.chitGroupId == gid && x.userId == data.userId)).length
      = 1 := by
    rw [hcgm, List.filter_append]
    have hold : s.chitGroupMembers.filter
        (fun x => x.chitGroupId == gid && x.userId == data.userId) = [] := by
      rw [List.filter_eq_nil_iff]
      intro x hx hpx
      have h1 : (x.chitGroupId == gid) = true := by
        cases h : (x.chitGroupId == gid) with
        | true => rfl
        | false => rw [h] at hpx; simp at hpx
      have h2 : (x.userId == data.userId) = true := by
        cases h : (x.userId == data.userId) with
        | true => rfl
        | false => rw [h] at hpx; simp [h] at hpx
      have hxin : x ∈ s.getChitGroupMembers gid := by
        simp only [MemStorage.getChitGroupMembers, List.mem_filter]
        exact ⟨hx, h1⟩
      have := List.any_eq_false.mp hnew x hxin
      rw [h2] at this
      exact this rfl
    rw [hold]
    simp [hmem_gid, hmem_uid]
  exact ⟨newMem, s1, hq, hsecond, hcount⟩

/-- C6 witness: adding the not-yet-member fixture customer 4 to group 1 and
then attempting the identical call again. -/
theorem C6_duplicate_membership_conflict_witness :
    ∃ mem s1, postChitGroupMembers storeS0 (some mgrOne) 1
        { chitGroupId := 1, userId := 4, joinDate := "2024-01-02" }
        = (.ok 201 mem, s1)
      ∧ postChitGroupMembers s1 (some mgrOne) 1
          { chitGroupId := 1, userId := 4, joinDate := "2024-01-02" }
          = (.err 400 "User is already a member of this chit group", s1)
      ∧ (s1.chitGroupMembers.filter
           (fun x => x.chitGroupId == 1 && x.userId == 4)).length = 1 :=
  C6_duplicate_membership_conflict storeS0 mgrOne 1 grpOne custFour
    { chitGroupId := 1, userId := 4, joinDate := "2024-01-02" }
    rfl rfl rfl rfl rfl rfl

/-- C7: for a customer session, the group-listing endpoint returns exactly
the groups a membership record ties the customer to: a group is in the
response if and only if it is stored and some stored membership record pairs
its id with the customer's id (group ids assumed distinct, as the
monotonically increasing id counter guarantees). -/
theorem C7_customer_listing_exact (s : MemStorage) (c : User)
    (hc : c.role = "customer")
    (hnd : (s.chitGroups.map ChitGroup.id).Nodup) :
    ∃ gs, getChitGroups s (some c) = .ok 200 gs
      ∧ ∀ G : ChitGroup, G ∈ gs ↔
          (G ∈ s.chitGroups ∧ ∃ mem ∈ s.chitGroupMembers,
            mem.chitGroupId = G.id ∧ mem.userId = c.id) := by
  have hrole : (c.role == "manager") = false := by simp [hc]
  refine ⟨s.getChitGroupsByUser c.id, by simp [getChitGroups, hrole], ?_⟩
  intro G
  constructor
  · intro hG
    simp only [MemStorage.getChitGroupsByUser, List.mem_filterMap] at hG
    obtain ⟨mem, hmem, hfind⟩ := hG
    rw [List.mem_filter] at hmem
    refine ⟨List.mem_of_find?_eq_some hfind, mem, hmem.1, ?_,
      eq_of_beq hmem.2⟩
    have := List.find?_some hfind
    exact (eq_of_beq this).symm
  · rintro ⟨hGmem, mem, hmem, hgid, huid⟩
    simp only [MemStorage.getChitGroupsByUser, List.mem_filterMap]
    refine ⟨mem, ?_, ?_⟩
    · rw [List.mem_filter]
      exact ⟨hmem, by simp [huid]⟩
    · show s.getChitGroup mem.chitGroupId = some G
      unfold MemStorage.getChitGroup
      rw [hgid]
      exact find?_key_of_nodup ChitGroup.id s.chitGroups hnd G hGmem

/-- C7 witness: the listing for fixture customer 3 over the fixture store. -/
theorem C7_customer_listing_exact_witness :
    ∃ gs, getChitGroups storeS0 (some custThree) = .ok 200 gs
      ∧ ∀ G : ChitGroup, G ∈ gs ↔
          (G ∈ storeS0.chitGroups ∧ ∃ mem ∈ storeS0.chitGroupMembers,
            mem.chitGroupId = G.id ∧ mem.userId = custThree.id) :=
  C7_customer_listing_exact storeS0 custThree rfl (by decide)

/-- C8: the first-login reset endpoint (`POST /api/users/:userId/reset-password`,
the flow the client's first-login dialog calls): with a current password that
does not verify against the stored credential the call fails with 400 and the
store — hence the user record and its isFirstLogin flag — is unchanged; with
the correct current password it succeeds, and the stored user now has
`isFirstLogin = false` and a credential against which the new password
verifies and the old one no longer does. -/
theorem C8_first_login_reset (s : MemStorage) (uid : Nat) (u : User)
    (oldPw oldSalt newPw newSalt : String) (session : Option User)
    (hu : s.getUser uid = some u)
    (hpw : u.password = hashPassword oldPw oldSalt)
    (huid : uid ≠ 0) (hold : oldPw ≠ "") (hnew : newPw ≠ "")
    (hne : newPw ≠ oldPw) :
    (∀ c : String, c ≠ "" → comparePasswords c u.password = false →
      postUserResetPassword s session uid (some c) (some newPw) newSalt
        = (.err 400 "Current password is incorrect", s))
    ∧ (∃ s1, postUserResetPassword s session uid (some oldPw) (some newPw)
          newSalt = (.ok 200 "Password updated successfully", s1)
        ∧ ∃ u2, s1.getUser uid = some u2
          ∧ u2.isFirstLogin = false
          ∧ comparePasswords newPw u2.password = true
          ∧ comparePasswords oldPw u2.password = false) := by
  have huid2 : (uid == 0) = false := by simp [huid]
  have hnew2 : (newPw == "") = false := by simp [hnew]
  constructor
  · intro c hc hbad
    have hc2 : (c == "") = false := by simp [hc]
    simp [postUserResetPassword, huid2, hc2, hnew2, hu, hbad]
  · have hold2 : (oldPw == "") = false := by simp [hold]
    have hcmp : comparePasswords oldPw u.password = true := by
      rw [hpw]; exact comparePasswords_hash_self oldPw oldSalt
    set patch : UserPatch :=
      { password := some (hashPassword newPw newSalt)
        isFirstLogin := some false } with hpatch
    set u2 : User := mergeUser u patch with hu2
    have hq : postUserResetPassword s session uid (some oldPw) (some newPw)
        newSalt = (.ok 200 "Password updated successfully",
          { s with users :=
              s.users.map (fun x => if x.id == uid then u2 else x) }) := by
      simp [postUserResetPassword, huid2, hold2, hnew2, hu, hcmp,
        MemStorage.updateUser, hu2, hpatch]
    refine ⟨_, hq, u2, ?_, rfl, ?_, ?_⟩
    · exact find?_map_replace User.id s.users uid u u2 rfl hu
    · exact comparePasswords_hash_self newPw newSalt
    · exact comparePasswords_hash_ne newSalt (fun h => hne h.symm)

/-- C8 witness: fixture customer 3 resetting the temporary password `temp`
to `newpw`, plus a failed attempt with the wrong current password. -/
theorem C8_first_login_reset_witness :
    (postUserResetPassword storeS0 none 3 (some "wrong") (some "newpw") "ns"
      = (.err 400 "Current password is incorrect", storeS0))
    ∧ (∃ s1, postUserResetPassword storeS0 none 3 (some "temp") (some "newpw")
          "ns" = (.ok 200 "Password updated successfully", s1)
        ∧ ∃ u2, s1.getUser 3 = some u2
          ∧ u2.isFirstLogin = false
          ∧ comparePasswords "newpw" u2.password = true
          ∧ comparePasswords "temp" u2.password = false) :=
  ⟨(C8_first_login_reset storeS0 3 custThree "temp" "ts" "newpw" "ns" none
      rfl rfl (by decide) (by decide) (by decide) (by decide)).1
      "wrong" (by decide) (by decide),
   (C8_first_login_reset storeS0 3 custThree "temp" "ts" "newpw" "ns" none
      rfl rfl (by decide) (by decide) (by decide) (by decide)).2⟩

/-- C9: `POST /api/users/:userId/reset-password` does no session or identity
check: its outcome is identical for every session value (including none), a
well-formed request with an existing user and the correct current password
is applied regardless of the session, and no input whatsoever produces a
401 Unauthenticated response. -/
theorem C9_reset_password_ignores_session (s : MemStorage) (uid : Nat)
    (u : User) (cur newPw salt : String)
    (hu : s.getUser uid = some u) (huid : uid ≠ 0)
    (hcur : cur ≠ "") (hnew : newPw ≠ "")
    (hok : comparePasswords cur u.password = true) :
    (∀ session : Option User,
       postUserResetPassword s session uid (some cur) (some newPw) salt
         = postUserResetPassword s none uid (some cur) (some newPw) salt)
    ∧ (∀ session : Option User,
       (postUserResetPassword s session uid (some cur) (some newPw) salt).1
         = .ok 200 "Password updated successfully")
    ∧ (∀ (session : Option User) (uid2 : Nat) (cur2 new2 : Option String)
         (salt2 : String),
       (postUserResetPassword s session uid2 cur2 new2 salt2).1.status
         ≠ 401) := by
  have huid2 : (uid == 0) = false := by simp [huid]
  have hcur2 : (cur == "") = false := by simp [hcur]
  have hnew2 : (newPw == "") = false := by simp [hnew]
  refine ⟨fun _ => rfl, ?_, ?_⟩
  · intro session
    simp [postUserResetPassword, huid2, hcur2, hnew2, hu, hok,
      MemStorage.updateUser]
  · intro session uid2 cur2 new2 salt2
    unfold postUserResetPassword
    split
    · simp [Resp.status]
    · cases h : s.getUser uid2 with
      | none => simp [h, Resp.status]
      | some v =>
        simp only [h]
        split
        · simp [Resp.status]
        · simp [Resp.status]

/-- C9 witness: customer 3's reset succeeds identically with no session and
with manager 2's session, and a 401 never occurs. -/
theorem C9_reset_password_ignores_session_witness :
    (postUserResetPassword storeS0 (some mgrTwo) 3 (some "temp")
        (some "newpw") "ns"
      = postUserResetPassword storeS0 none 3 (some "temp") (some "newpw") "ns")
    ∧ ((postUserResetPassword storeS0 (some mgrTwo) 3 (some "temp")
        (some "newpw") "ns").1 = .ok 200 "Password updated successfully")
    ∧ ((postUserResetPassword storeS0 none 999 none none "x").1.status
        ≠ 401) :=
  ⟨(C9_reset_password_ignores_session storeS0 3 custThree "temp" "newpw" "ns"
      rfl (by decide) (by decide) (by decide) rfl).1 (some mgrTwo),
   (C9_reset_password_ignores_session storeS0 3 custThree "temp" "newpw" "ns"
      rfl (by decide) (by decide) (by decide) rfl).2.1 (some mgrTwo),
   (C9_reset_password_ignores_session storeS0 3 custThree "temp" "newpw" "ns"
      rfl (by decide) (by decide) (by decide) rfl).2.2 none 999 none none "x"⟩

/-- C10: for any existing auction, the bid-listing endpoint returns the full
list of the auction's bids enriched with bidder details to every
authenticated user alike — customer or manager, member or not — with no
membership or ownership check. -/
theorem C10_bid_list_no_access_check (s : MemStorage) (id : Nat)
    (a : Auction) (ha : s.getAuction id = some a) :
    ∀ u : User, getAuctionBids s (some u) id
      = .ok 200 ((s.bids.filter (fun b => b.auctionId == id)).map
          (enrichBid s)) := by
  intro u
  simp [getAuctionBids, ha, MemStorage.getBidsByAuction]

/-- C10 witness: fixture customer 4, who is not a member of auction 2's
group, receives the full bid list of auction 2. -/
theorem C10_bid_list_no_access_check_witness :
    getAuctionBids storeS0 (some custFour) 2
      = .ok 200 ((storeS0.bids.filter (fun b => b.auctionId == 2)).map
          (enrichBid storeS0)) :=
  C10_bid_list_no_access_check storeS0 2 aucCompleted rfl custFour

end Chitfund
